import Mathlib

/-!
Verification of the Philement status-client scripts
(`src/elements/001-hydrogen/deuterium/klippertest.py`, asynchronous, and
`src/elements/001-hydrogen/3dstatus/3dstatus.py`, synchronous) against the
repository's specification.

The embedding works at two levels of granularity, both translated from the
Python source:

* a byte level for the framing code (`receive_response` in both scripts),
  where the peer's output is a list of read chunks, each chunk a list of
  byte values; and
* a frame level for the request/response logic and the retry loop of
  `get_printer_status`, where each read returns one already-parsed JSON
  frame (the regime in which every frame arrives in its own read; the byte
  level shows what happens when frames coalesce).

JSON values are modelled by `JVal`; numeric JSON values are modelled as
integers, which covers every value the verified claims exercise (the
defaulted position `[0, 0, 0]` and the small literal ids).  Sleeping is
recorded in tenths of a time-unit so that both the 2-unit inter-attempt
delay and the 0.1-unit delay written (but, as explained below, never
executed) in the synchronous connect handler are representable.
-/

/-- A JSON value.  Objects are association lists with the keys unique, as
produced by parsing a JSON text (`json.loads`); lookup takes the first
binding. -/
inductive JVal where
  | jnull : JVal
  | jbool : Bool → JVal
  | jint : Int → JVal
  | jstr : String → JVal
  | jarr : List JVal → JVal
  | jobj : List (String × JVal) → JVal

/-- Key lookup on an object (`data[k]` / `k in data` probing).  On a
non-object it returns `none`; in Python the corresponding probe either
answers false or raises, and every raise in the translated code paths is
caught by a handler that abandons the attempt, which is the same observable
outcome as the `none` branch of each caller below. -/
def getKey : JVal → String → Option JVal
  | .jobj fs, k => fs.lookup k
  | _, _ => none

/-- `k in data` on a parsed object. -/
def hasKey (v : JVal) (k : String) : Bool :=
  (getKey v k).isSome

/-- The frame terminator byte `0x03` appended to every request and searched
for by the asynchronous reader. -/
def ETX : Nat := 3

/-- A wire frame: the serialized payload bytes followed by the single
terminator byte (`json.dumps(...) + "\x03"`, then `.encode()`). -/
def encodeFrame (payload : List Nat) : List Nat :=
  payload ++ [ETX]

/-- The accumulation loop of the asynchronous `receive_response`
(klippertest.py lines 113-126): keep appending read chunks to the buffer
until the buffer contains the terminator byte, the reader is exhausted
(`reader.read` returns an empty chunk: the peer closed), or an error
occurs.  Returns the accumulated buffer and the chunks not yet read. -/
def recvLoop : List (List Nat) → List Nat → List Nat × List (List Nat)
  | [], acc => (acc, [])
  | c :: cs, acc =>
    if c.isEmpty then (acc, cs)
    else if ETX ∈ acc ++ c then (acc ++ c, cs)
    else recvLoop cs (acc ++ c)

/-- The asynchronous `receive_response` (klippertest.py lines 112-130): run
the accumulation loop starting from an empty buffer, then return
`response_data.split(b"\x03")[0]` — the bytes before the first terminator.
Whatever followed the first terminator in the buffer is dropped: the next
call starts again from an empty buffer and only sees chunks that were never
read. -/
def receive_response (chunks : List (List Nat)) : List Nat × List (List Nat) :=
  let r := recvLoop chunks []
  (r.1.takeWhile (fun b => b ≠ ETX), r.2)

/-- `bytes.strip(b"\x03")` as used by the synchronous client: remove every
leading and trailing terminator byte, leaving interior ones in place. -/
def stripETX (bs : List Nat) : List Nat :=
  ((bs.dropWhile (fun b => b = ETX)).reverse.dropWhile (fun b => b = ETX)).reverse

/-- The synchronous `receive_response` (3dstatus.py lines 124-135): read
chunks until the peer closes or a socket error (including the receive
timeout) occurs — there is no terminator search at all — then strip
terminator bytes from both ends of everything received.  `chunks` is the
whole sequence of reads delivered before the loop stopped. -/
def receive_response_sync (chunks : List (List Nat)) : List Nat :=
  stripETX chunks.flatten

/-- The `objects/list` request built first in both scripts (klippertest.py
lines 164-168, 3dstatus.py lines 177-181), in the order the Python dict
literal writes its keys. -/
def listRequest : JVal :=
  .jobj [("jsonrpc", .jstr "2.0"), ("method", .jstr "objects/list"), ("id", .jint 123)]

/-- The `objects/subscribe` request of the asynchronous client
(klippertest.py lines 188-197). -/
def subscribeRequest : JVal :=
  .jobj [("jsonrpc", .jstr "2.0"), ("method", .jstr "objects/subscribe"),
         ("params", .jobj [("objects", .jobj [("toolhead", .jarr [.jstr "position"])])]),
         ("id", .jint 456)]

/-- The `params` object of the synchronous client's status query
(3dstatus.py lines 200-205 and 213-218, identical in both branches). -/
def queryObjectsParams : JVal :=
  .jobj [("objects", .jobj [("toolhead", .jarr [.jstr "position"]),
                            ("print_stats", .jarr [.jstr "state"])])]

/-- Python truthiness of the resolved `klipper_api_key`: `None` and the
empty string are falsy, any other string truthy. -/
def truthy : Option String → Bool
  | none => false
  | some s => !s.isEmpty

/-- The `printer.objects.query` request builder of the synchronous client
(3dstatus.py lines 196-220): `if klipper_api_key:` selects between two dict
literals, one carrying an `api_key` entry and one with no such key at
all. -/
def buildQueryRequest (klipper_api_key : Option String) : JVal :=
  if truthy klipper_api_key then
    .jobj [("jsonrpc", .jstr "2.0"), ("method", .jstr "printer.objects.query"),
           ("params", queryObjectsParams), ("id", .jint 1),
           ("api_key", .jstr (klipper_api_key.getD ""))]
  else
    .jobj [("jsonrpc", .jstr "2.0"), ("method", .jstr "printer.objects.query"),
           ("params", queryObjectsParams), ("id", .jint 1)]

/-- The spec's Response shape (spec §3): a reply frame carries `id` and
either `result` or `error`. -/
inductive Response where
  | ok : Int → JVal → Response
  | err : Int → JVal → Response

/-- The wire frame a `Response` stands for. -/
def Response.toFrame : Response → JVal
  | .ok i r => .jobj [("id", .jint i), ("result", r)]
  | .err i e => .jobj [("id", .jint i), ("error", e)]

/-- Outcome of the synchronous client's handling of the query reply
(3dstatus.py lines 229-237). -/
inductive QueryOutcome where
  | success : JVal → JVal → QueryOutcome
  | failRetry : QueryOutcome

/-- The synchronous client's processing of the parsed query reply
(3dstatus.py lines 229-237): the success branch requires `"result" in data`
and then extracts `data["result"]["status"]["toolhead"]["position"]` and
`data["result"]["status"]["print_stats"]["state"]`; every missing key on
that path raises `KeyError`, which the surrounding handler (line 242)
catches, turning the attempt into a retry, and the explicit `else`
branches (lines 236-240) also fall through to a retry. -/
def handleQueryReply (data : JVal) : QueryOutcome :=
  match getKey data "result" with
  | none => .failRetry
  | some r =>
    match getKey r "status" with
    | none => .failRetry
    | some st =>
      match getKey st "toolhead" with
      | none => .failRetry
      | some th =>
        match getKey th "position" with
        | none => .failRetry
        | some pos =>
          match getKey st "print_stats" with
          | none => .failRetry
          | some ps =>
            match getKey ps "state" with
            | none => .failRetry
            | some state => .success pos state

/-- One status snapshot batch of the asynchronous subscription loop.  The
loop body (klippertest.py lines 202-218) processes each frame in order:
a frame with no `params` key is silently skipped; a frame whose `params`
lacks `status` raises `KeyError` inside `print_printer_status`'s argument
expression, which the `except Exception` handler turns into a `break`
terminating the loop; a frame with `params.status` yields one snapshot.
Returns the snapshots yielded, and whether the loop terminated (reached a
`break`) before the frame list ran out — when frames run out the loop does
not terminate (see `subRun`). -/
def innerLoop : List JVal → List JVal × Bool
  | [] => ([], false)
  | f :: fs =>
    match getKey f "params" with
    | none => innerLoop fs
    | some p =>
      match getKey p "status" with
      | none => ([], true)
      | some st =>
        let r := innerLoop fs
        (st :: r.1, r.2)

/-- What one iteration of the subscription loop does, as an observable
event. -/
inductive SubEv where
  | snap : JVal → SubEv
  | skip : SubEv
  | idle : SubEv
  | stop : SubEv

/-- One iteration of the asynchronous subscription loop (klippertest.py
lines 202-218) at frame granularity.  On an exhausted stream (the peer has
closed) `receive_response` returns the empty string, `if update:` is false,
and the body sleeps one time-unit and loops again — the `idle` event; there
is no exit path for a closed stream. -/
def subStep : List JVal → SubEv × List JVal
  | [] => (.idle, [])
  | f :: fs =>
    match getKey f "params" with
    | none => (.skip, fs)
    | some p =>
      match getKey p "status" with
      | none => (.stop, fs)
      | some st => (.snap st, fs)

/-- The subscription loop run for `n` iterations, recording each
iteration's event. -/
def subRun : Nat → List JVal → List SubEv
  | 0, _ => []
  | n + 1, frames =>
    let r := subStep frames
    r.1 :: subRun n r.2

/-- The environment one connection attempt of the asynchronous client runs
against: whether `asyncio.open_unix_connection` succeeds, and the frames
the peer then writes, one per read. -/
structure AttemptEnv where
  connectOk : Bool
  frames : List JVal

/-- Observable events of a `get_printer_status` run.  Sleeps are recorded
in tenths of a time-unit. -/
inductive Ev where
  | resolve : Ev
  | connect : Nat → Ev
  | send : JVal → Ev
  | yieldSnap : JVal → Ev
  | sleepT : Nat → Ev
  | failLog : Ev

/-- The event trace of attempt `i` of the asynchronous client
(klippertest.py lines 158-227, one iteration of the `for attempt` loop, up
to but not including the inter-attempt sleep).  A failed connect raises and
is caught by the generic handler, ending the attempt.  On a connect the
client sends `objects/list`, reads one frame, and proceeds to subscribe
only when the frame has a `result` key whose value has an `objects` key
(`data["result"]["objects"]`, line 179 — a missing key raises `KeyError`,
caught at line 224); after subscribing it runs the subscription loop over
the remaining frames.  An empty reply ("No response received"), a reply
without `result` ("Error in objects/list"), and every raise all just end
the attempt. -/
def attemptEvents (i : Nat) (env : AttemptEnv) : List Ev :=
  if env.connectOk then
    Ev.connect i :: Ev.send listRequest ::
      (match env.frames with
       | [] => []
       | f :: fs =>
         match getKey f "result" with
         | none => []
         | some r =>
           match getKey r "objects" with
           | none => []
           | some _ => Ev.send subscribeRequest :: (innerLoop fs).1.map Ev.yieldSnap)
  else [Ev.connect i]

/-- Whether attempt `i`'s body terminates: every path does except a
subscription loop whose frame stream runs out without a breaking frame
(which idles forever, `subRun`). -/
def attemptTerminates (env : AttemptEnv) : Bool :=
  if env.connectOk then
    match env.frames with
    | [] => true
    | f :: fs =>
      match getKey f "result" with
      | none => true
      | some r =>
        match getKey r "objects" with
        | none => true
        | some _ => (innerLoop fs).2
  else true

/-- The attempt counter bound hard-coded in both scripts
(`max_attempts = 3`). -/
def max_attempts : Nat := 3

/-- Attempts `i, i+1, ...` (`n` of them) of the asynchronous client's
`for attempt in range(max_attempts)` loop, each followed by
`await asyncio.sleep(delay)` with `delay = 2` (klippertest.py line 229) —
the sleep runs after every attempt, successful or not, because no path
leaves the loop body early. -/
def attemptsFrom (envs : Nat → AttemptEnv) : Nat → Nat → List Ev
  | _, 0 => []
  | i, n + 1 => attemptEvents i (envs i) ++ Ev.sleepT 20 :: attemptsFrom envs (i + 1) n

/-- The asynchronous `get_printer_status` (klippertest.py lines 138-231) as
an event trace: endpoint resolution (process scan and config parsing, lines
140-149) happens once, before the attempt loop; then the three attempts
each followed by the two-unit sleep; then the terminal failure log (line
231), which is always reached because the loop never returns early. -/
def get_printer_status (envs : Nat → AttemptEnv) : List Ev :=
  Ev.resolve :: attemptsFrom envs 0 max_attempts ++ [Ev.failLog]

/-- The requests sent in a trace, in order. -/
def sends (l : List Ev) : List JVal :=
  l.filterMap fun e =>
    match e with
    | .send r => some r
    | _ => none

/-- Number of connection attempts in a trace. -/
def countConnect (l : List Ev) : Nat :=
  l.countP fun e =>
    match e with
    | .connect _ => true
    | _ => false

/-- Number of endpoint resolutions in a trace. -/
def countResolve (l : List Ev) : Nat :=
  l.countP fun e =>
    match e with
    | .resolve => true
    | _ => false

/-- Number of two-unit (twenty-tenths) sleeps in a trace. -/
def countSleep20 (l : List Ev) : Nat :=
  l.countP fun e =>
    match e with
    | .sleepT 20 => true
    | _ => false

/-- The reply the asynchronous client's list call actually examines: the
first frame read, with no id filtering of any kind (klippertest.py lines
171-177 parse the single `receive_response` result directly). -/
def callResult (frames : List JVal) : Option JVal :=
  frames.head?

/-- The call behaviour the spec describes (spec §4.3): loop-read frames,
discarding every frame whose `id` differs from the request's id, until the
matching frame arrives.  Stated here only to compare with the code's
behaviour; it is not translated from the source. -/
def callSpec (rid : Int) : List JVal → Option JVal
  | [] => none
  | f :: fs =>
    match getKey f "id" with
    | some (.jint n) => if n = rid then some f else callSpec rid fs
    | _ => callSpec rid fs

/-- `dict.get(k, d)` on a parsed object; on a non-dict the attribute access
raises (`none`). -/
def pyGet (o : JVal) (k : String) (d : JVal) : Option JVal :=
  match o with
  | .jobj fs => some ((fs.lookup k).getD d)
  | _ => none

/-- List indexing `xs[i]`; raises (`none`) out of range or on a
non-array. -/
def jIndex : JVal → Nat → Option JVal
  | .jarr xs, i => xs.get? i
  | _, _ => none

/-- A JSON number as the integer it is modelled by; `%.2f` formatting of a
non-number raises (`none`). -/
def asInt : JVal → Option Int
  | .jint n => some n
  | _ => none

/-- `%.2f` rendering of an integer-valued coordinate: `0 ↦ "0.00"`. -/
def fmt2 (n : Int) : String := toString n ++ ".00"

/-- The default position list `[0, 0, 0]` (klippertest.py lines
235-237). -/
def defaultPosition : JVal := .jarr [.jint 0, .jint 0, .jint 0]

/-- `print_printer_status` (klippertest.py lines 233-237): `status.get
("toolhead", \x7b\x7d)`, then `toolhead.get("position", [0, 0, 0])[i]`
formatted with two decimals for each axis.  Returns the printed line, or
`none` when the Python code would raise. -/
def print_printer_status (status : JVal) : Option String := do
  let toolhead ← pyGet status "toolhead" (.jobj [])
  let pos ← pyGet toolhead "position" defaultPosition
  let x ← asInt (← jIndex pos 0)
  let y ← asInt (← jIndex pos 1)
  let z ← asInt (← jIndex pos 2)
  pure ("Toolhead Position: X=" ++ fmt2 x ++ ", Y=" ++ fmt2 y ++ ", Z=" ++ fmt2 z)

/-- The status object pushed in the spec's subscription scenario:
`toolhead.position = [1, 2, 3]`. -/
def statusToolhead : JVal :=
  .jobj [("toolhead", .jobj [("position", .jarr [.jint 1, .jint 2, .jint 3])])]

/-- The spec's subscription-scenario notification frame,
`notify_status_update` carrying `params.status`. -/
def notifyStatusUpdate : JVal :=
  .jobj [("method", .jstr "notify_status_update"),
         ("params", .jobj [("status", statusToolhead)])]

/-- A well-formed `objects/list` success reply with the request's id
123. -/
def okListResponse : JVal :=
  .jobj [("id", .jint 123),
         ("result", .jobj [("objects", .jarr [.jstr "toolhead", .jstr "print_stats"])])]

/-- A frame whose `params` lacks `status`: processing it raises `KeyError`
and breaks the subscription loop. -/
def breakingFrame : JVal := .jobj [("params", .jobj [])]

/-- An endpoint whose socket always refuses the connection. -/
def alwaysRefuse : Nat → AttemptEnv := fun _ => ⟨false, []⟩

/-- A run in which every attempt connects, the list call succeeds, one
status notification arrives, and then a breaking frame ends the
subscription loop. -/
def successfulEnvs : Nat → AttemptEnv :=
  fun _ => ⟨true, [okListResponse, notifyStatusUpdate, breakingFrame]⟩

/-- C1.  The spec's framing round-trip claim fails on the code.  With
`v = "1"` (byte 49) and `w = "2"` (byte 50), when `encode(v) ++ encode(w)`
arrives in a single read the asynchronous `receive_response` returns `v`'s
bytes and drops everything after the first terminator — nothing remains
buffered, so a subsequent call (second conjunct) sees a closed stream and
returns nothing: `w` is lost.  When the same bytes arrive as two separate
reads (third conjunct) the second frame survives as an unread chunk, so the
outcome depends on chunking.  The synchronous `receive_response` (fourth
conjunct) concatenates both frames into one body with an interior
terminator byte instead of yielding `v` then `w`. -/
theorem frame_decoding_loses_coalesced_frames :
    receive_response [encodeFrame [49] ++ encodeFrame [50]] = ([49], []) ∧
    receive_response [] = ([], []) ∧
    receive_response [encodeFrame [49], encodeFrame [50]] = ([49], [encodeFrame [50]]) ∧
    receive_response_sync [encodeFrame [49], encodeFrame [50]] = [49, ETX, 50] := by
  refine ⟨rfl, rfl, rfl, rfl⟩

/-- Snapshot events contribute no connection attempts. -/
theorem countConnect_snaps (l : List JVal) :
    countConnect (l.map Ev.yieldSnap) = 0 := by
  simp [countConnect]

/-- Snapshot events contribute no resolutions. -/
theorem countResolve_snaps (l : List JVal) :
    countResolve (l.map Ev.yieldSnap) = 0 := by
  simp [countResolve]

/-- Snapshot events contribute no sleeps. -/
theorem countSleep20_snaps (l : List JVal) :
    countSleep20 (l.map Ev.yieldSnap) = 0 := by
  simp [countSleep20]

/-- Snapshot events send nothing. -/
theorem sends_snaps (l : List JVal) :
    sends (l.map Ev.yieldSnap) = [] := by
  simp [sends]

/-- The three possible shapes of an attempt's trace: connect failed; list
call made but not answered successfully; list call answered and the
subscribe request sent, followed only by snapshots. -/
theorem attemptEvents_shape (i : Nat) (env : AttemptEnv) :
    attemptEvents i env = [Ev.connect i] ∨
    attemptEvents i env = [Ev.connect i, Ev.send listRequest] ∨
    ∃ snaps : List JVal, attemptEvents i env =
      Ev.connect i :: Ev.send listRequest :: Ev.send subscribeRequest ::
        snaps.map Ev.yieldSnap := by
  unfold attemptEvents
  by_cases hc : env.connectOk
  · rw [if_pos hc]
    cases env.frames with
    | nil => right; left; rfl
    | cons f fs =>
      cases h1 : getKey f "result" with
      | none => right; left; simp [h1]
      | some r =>
        cases h2 : getKey r "objects" with
        | none => right; left; simp [h1, h2]
        | some o => exact Or.inr (Or.inr ⟨(innerLoop fs).1, by simp [h1, h2]⟩)
  · rw [if_neg hc]; left; rfl

/-- Every attempt makes exactly one connection attempt. -/
theorem countConnect_attempt (i : Nat) (env : AttemptEnv) :
    countConnect (attemptEvents i env) = 1 := by
  rcases attemptEvents_shape i env with h | h | ⟨snaps, h⟩ <;> rw [h]
  · rfl
  · rfl
  · have hs := countConnect_snaps snaps
    simp only [countConnect, List.countP_cons] at hs ⊢
    simp [hs]

/-- No attempt resolves the endpoint: resolution happens before the
loop. -/
theorem countResolve_attempt (i : Nat) (env : AttemptEnv) :
    countResolve (attemptEvents i env) = 0 := by
  rcases attemptEvents_shape i env with h | h | ⟨snaps, h⟩ <;> rw [h]
  · rfl
  · rfl
  · have hs := countResolve_snaps snaps
    simp only [countResolve, List.countP_cons] at hs ⊢
    simp [hs]

/-- No attempt sleeps the inter-attempt delay itself: the sleep follows
the attempt in the loop. -/
theorem countSleep20_attempt (i : Nat) (env : AttemptEnv) :
    countSleep20 (attemptEvents i env) = 0 := by
  rcases attemptEvents_shape i env with h | h | ⟨snaps, h⟩ <;> rw [h]
  · rfl
  · rfl
  · have hs := countSleep20_snaps snaps
    simp only [countSleep20, List.countP_cons] at hs ⊢
    simp [hs]

/-- What an attempt sends: nothing (connect failed), the list request
alone, or the list request followed by the subscribe request. -/
theorem sends_attempt (i : Nat) (env : AttemptEnv) :
    sends (attemptEvents i env) = [] ∨
    sends (attemptEvents i env) = [listRequest] ∨
    sends (attemptEvents i env) = [listRequest, subscribeRequest] := by
  rcases attemptEvents_shape i env with h | h | ⟨snaps, h⟩ <;> rw [h]
  · left; rfl
  · right; left; rfl
  · right; right
    have hs := sends_snaps snaps
    simp only [sends, List.filterMap_cons] at hs ⊢
    simp [hs]

/-- Connection attempts across the remaining loop iterations. -/
theorem countConnect_attemptsFrom (envs : Nat → AttemptEnv) :
    ∀ n i, countConnect (attemptsFrom envs i n) = n := by
  intro n
  induction n with
  | zero => intro i; rfl
  | succ n ih =>
    intro i
    have ha := countConnect_attempt i (envs i)
    have hr := ih (i + 1)
    simp only [attemptsFrom, countConnect, List.countP_append, List.countP_cons] at ha hr ⊢
    simp [ha, hr]
    omega

/-- No loop iteration resolves the endpoint. -/
theorem countResolve_attemptsFrom (envs : Nat → AttemptEnv) :
    ∀ n i, countResolve (attemptsFrom envs i n) = 0 := by
  intro n
  induction n with
  | zero => intro i; rfl
  | succ n ih =>
    intro i
    have ha := countResolve_attempt i (envs i)
    have hr := ih (i + 1)
    simp only [attemptsFrom, countResolve, List.countP_append, List.countP_cons] at ha hr ⊢
    simp [ha, hr]

/-- Each loop iteration sleeps the two-unit delay exactly once. -/
theorem countSleep20_attemptsFrom (envs : Nat → AttemptEnv) :
    ∀ n i, countSleep20 (attemptsFrom envs i n) = n := by
  intro n
  induction n with
  | zero => intro i; rfl
  | succ n ih =>
    intro i
    have ha := countSleep20_attempt i (envs i)
    have hr := ih (i + 1)
    simp only [attemptsFrom, countSleep20, List.countP_append, List.countP_cons] at ha hr ⊢
    simp [ha, hr]

/-- Every run of the asynchronous client ends with the terminal failure
log. -/
theorem getLast_get_printer_status (envs : Nat → AttemptEnv) :
    (get_printer_status envs).getLast? = some Ev.failLog := by
  show (Ev.resolve :: (attemptsFrom envs 0 max_attempts ++ [Ev.failLog])).getLast? = _
  rw [← List.cons_append, List.getLast?_concat]

/-- After the peer closes the stream, every iteration of the subscription
loop idles: the loop never reaches an exit. -/
theorem subRun_closed (n : Nat) : subRun n [] = List.replicate n SubEv.idle := by
  induction n with
  | zero => rfl
  | succ n ih => simpa [subRun, subStep, List.replicate_succ] using ih

/-- Total connection attempts of a run: one per loop iteration. -/
theorem countConnect_run (envs : Nat → AttemptEnv) :
    countConnect (get_printer_status envs) = max_attempts := by
  have hm := countConnect_attemptsFrom envs max_attempts 0
  simp only [get_printer_status, countConnect, List.countP_cons, List.countP_append] at hm ⊢
  simp [hm]

/-- Total endpoint resolutions of a run: exactly the one before the
loop. -/
theorem countResolve_run (envs : Nat → AttemptEnv) :
    countResolve (get_printer_status envs) = 1 := by
  have hm := countResolve_attemptsFrom envs max_attempts 0
  simp only [get_printer_status, countResolve, List.countP_cons, List.countP_append] at hm ⊢
  simp [hm]

/-- Total two-unit sleeps of a run: one per loop iteration, including one
after the final attempt. -/
theorem countSleep20_run (envs : Nat → AttemptEnv) :
    countSleep20 (get_printer_status envs) = max_attempts := by
  have hm := countSleep20_attemptsFrom envs max_attempts 0
  simp only [get_printer_status, countSleep20, List.countP_cons, List.countP_append] at hm ⊢
  simp [hm]

/-- C2, counterexample.  The reply stream holds a notification and then a
well-formed response whose id (123) equals the list request's id.  The
spec-described call (`callSpec`) would skip the notification and return
that response; the code's call examines only the first frame read
(`callResult`), which is the notification, finds no `result` key, and the
attempt aborts after sending nothing but the list request — the matching
response is never returned. -/
theorem notification_not_skipped_cex :
    callSpec 123 [notifyStatusUpdate, okListResponse] = some okListResponse ∧
    callResult [notifyStatusUpdate, okListResponse] = some notifyStatusUpdate ∧
    hasKey notifyStatusUpdate "result" = false ∧
    hasKey okListResponse "result" = true ∧
    attemptEvents 0 ⟨true, [notifyStatusUpdate, okListResponse]⟩ =
      [Ev.connect 0, Ev.send listRequest] := by
  exact ⟨rfl, rfl, rfl, rfl, rfl⟩

/-- C2, amended.  The client performs no id-based correlation: a call
consumes exactly one frame and treats it as the reply whatever its id, so
whenever the first frame read lacks a `result` key — a notification, for
instance — the call fails and the attempt ends at once, regardless of any
matching response later in the stream. -/
theorem call_uses_first_frame_regardless_of_id (i : Nat) (f : JVal) (fs : List JVal)
    (h : hasKey f "result" = false) :
    attemptEvents i ⟨true, f :: fs⟩ = [Ev.connect i, Ev.send listRequest] := by
  have hnone : getKey f "result" = none := by
    cases hk : getKey f "result" with
    | none => rfl
    | some r => simp [hasKey, hk] at h
  simp [attemptEvents, hnone]

/-- Witness for C2's amended theorem: a notification heading a stream that
still holds the matching response. -/
theorem call_uses_first_frame_regardless_of_id_witness :
    attemptEvents 0 ⟨true, [notifyStatusUpdate, okListResponse]⟩ =
      [Ev.connect 0, Ev.send listRequest] :=
  call_uses_first_frame_regardless_of_id 0 notifyStatusUpdate [okListResponse] rfl

/-- C3.  Against an endpoint whose socket always refuses, the client makes
exactly `max_attempts` (three) connection attempts, sleeps two time-units
(twenty tenths) between consecutive attempts (and once more after the
last), then emits the terminal failure log and stops: the whole trace is
the finite list below, so the loop never runs unboundedly. -/
theorem connect_retry_is_bounded (envs : Nat → AttemptEnv)
    (h : ∀ i, (envs i).connectOk = false) :
    get_printer_status envs =
      [Ev.resolve, Ev.connect 0, Ev.sleepT 20, Ev.connect 1, Ev.sleepT 20,
       Ev.connect 2, Ev.sleepT 20, Ev.failLog] ∧
    countConnect (get_printer_status envs) = max_attempts ∧
    (get_printer_status envs).getLast? = some Ev.failLog := by
  have e : ∀ i, attemptEvents i (envs i) = [Ev.connect i] := fun i => by
    simp [attemptEvents, h i]
  refine ⟨?_, countConnect_run envs, getLast_get_printer_status envs⟩
  have h3 : attemptsFrom envs 0 max_attempts =
      attemptEvents 0 (envs 0) ++ Ev.sleepT 20 ::
        (attemptEvents 1 (envs 1) ++ Ev.sleepT 20 ::
          (attemptEvents 2 (envs 2) ++ Ev.sleepT 20 :: ([] : List Ev))) := rfl
  show (Ev.resolve :: attemptsFrom envs 0 max_attempts) ++ [Ev.failLog] = _
  rw [h3, e 0, e 1, e 2]
  rfl

/-- Witness for C3: the always-refusing endpoint. -/
theorem connect_retry_is_bounded_witness :
    get_printer_status alwaysRefuse =
      [Ev.resolve, Ev.connect 0, Ev.sleepT 20, Ev.connect 1, Ev.sleepT 20,
       Ev.connect 2, Ev.sleepT 20, Ev.failLog] ∧
    countConnect (get_printer_status alwaysRefuse) = max_attempts ∧
    (get_printer_status alwaysRefuse).getLast? = some Ev.failLog :=
  connect_retry_is_bounded alwaysRefuse (fun _ => rfl)

/-- C4.  The spec's subscription scenario, against the code.  Three pushed
status notifications do yield three snapshots in stream order (first
conjunct) — but when the peer then closes the socket the loop does not
stop: every later iteration merely idles (sleeps one unit and retries the
read), and no number of iterations ever reaches a exit event, so the
stream never terminates with a `PeerClosed`-style signal (second
conjunct). -/
theorem subscription_idles_forever_after_close (k : Nat) :
    subRun (3 + k) [notifyStatusUpdate, notifyStatusUpdate, notifyStatusUpdate] =
      SubEv.snap statusToolhead :: SubEv.snap statusToolhead ::
        SubEv.snap statusToolhead :: List.replicate k SubEv.idle ∧
    ∀ n, SubEv.stop ∉ subRun n [] := by
  constructor
  · have hsplit : subRun (3 + k) [notifyStatusUpdate, notifyStatusUpdate, notifyStatusUpdate] =
        SubEv.snap statusToolhead :: SubEv.snap statusToolhead ::
          SubEv.snap statusToolhead :: subRun k [] := by
      rw [Nat.add_comm 3 k]
      rfl
    rw [hsplit, subRun_closed]
  · intro n hmem
    rw [subRun_closed] at hmem
    have := List.eq_of_mem_replicate hmem
    exact absurd this (by simp)

/-- C5.  A response frame carrying an `error` field (the spec's `err`
response shape) has no `result` key, so the synchronous client's query
handling retries instead of succeeding, and the asynchronous client's list
call likewise abandons the attempt after the list request — the raw body is
never treated as a success result. -/
theorem error_response_is_failure (rid : Int) (e : JVal) (i : Nat) (fs : List JVal) :
    hasKey (Response.toFrame (.err rid e)) "result" = false ∧
    handleQueryReply (Response.toFrame (.err rid e)) = QueryOutcome.failRetry ∧
    attemptEvents i ⟨true, Response.toFrame (.err rid e) :: fs⟩ =
      [Ev.connect i, Ev.send listRequest] := by
  have hnone : getKey (Response.toFrame (.err rid e)) "result" = none := rfl
  refine ⟨rfl, rfl, ?_⟩
  simp [attemptEvents, hnone]

/-- C6, counterexample.  In a run in which every stage fails (the connect
is always refused), the endpoint is resolved exactly once while three
attempts are made: the retries do not restart from endpoint resolution,
which would require one resolution per attempt. -/
theorem resolution_not_repeated_cex :
    countResolve (get_printer_status alwaysRefuse) = 1 ∧
    countConnect (get_printer_status alwaysRefuse) = 3 ∧
    countResolve (get_printer_status alwaysRefuse) ≠
      countConnect (get_printer_status alwaysRefuse) := by
  have h1 : countResolve (get_printer_status alwaysRefuse) = 1 := rfl
  have h2 : countConnect (get_printer_status alwaysRefuse) = 3 := rfl
  refine ⟨h1, h2, ?_⟩
  rw [h1, h2]
  decide

/-- C6, amended.  On failure the orchestrator waits two time-units and
restarts from the connection step — endpoint resolution runs exactly once,
before the retry loop — up to `max_attempts` (three) iterations, each
followed by the delay, and then emits the terminal failure log and
stops. -/
theorem retry_restarts_from_connect_only (envs : Nat → AttemptEnv)
    (_h : ∀ i, i < max_attempts → attemptTerminates (envs i) = true) :
    countResolve (get_printer_status envs) = 1 ∧
    countSleep20 (get_printer_status envs) = max_attempts ∧
    countConnect (get_printer_status envs) = max_attempts ∧
    (get_printer_status envs).getLast? = some Ev.failLog :=
  ⟨countResolve_run envs, countSleep20_run envs, countConnect_run envs,
    getLast_get_printer_status envs⟩

/-- Witness for C6's amended theorem: the all-failing run. -/
theorem retry_restarts_from_connect_only_witness :
    countResolve (get_printer_status alwaysRefuse) = 1 ∧
    countSleep20 (get_printer_status alwaysRefuse) = max_attempts ∧
    countConnect (get_printer_status alwaysRefuse) = max_attempts ∧
    (get_printer_status alwaysRefuse).getLast? = some Ev.failLog :=
  retry_restarts_from_connect_only alwaysRefuse (fun _ _ => rfl)

/-- C7.  The list request names method `objects/list` and id 123; in every
attempt the first request sent (if any is sent) is that request; and when
its reply lacks a `result` key the attempt ends immediately — no query or
subscribe request is sent, and the outer loop moves to the next
attempt. -/
theorem first_rpc_is_objects_list (i : Nat) (env : AttemptEnv) :
    getKey listRequest "method" = some (.jstr "objects/list") ∧
    getKey listRequest "id" = some (.jint 123) ∧
    ((sends (attemptEvents i env)).head? = none ∨
      (sends (attemptEvents i env)).head? = some listRequest) ∧
    (∀ f fs, env.connectOk = true → env.frames = f :: fs →
      hasKey f "result" = false →
      attemptEvents i env = [Ev.connect i, Ev.send listRequest]) := by
  refine ⟨rfl, rfl, ?_, ?_⟩
  · rcases sends_attempt i env with h | h | h <;> rw [h] <;> simp
  · intro f fs hc hf hr
    have hnone : getKey f "result" = none := by
      cases hk : getKey f "result" with
      | none => rfl
      | some r => simp [hasKey, hk] at hr
    simp [attemptEvents, hc, hf, hnone]

/-- Witness for C7 at a concrete attempt whose reply lacks `result`. -/
theorem first_rpc_is_objects_list_witness :
    getKey listRequest "method" = some (.jstr "objects/list") ∧
    getKey listRequest "id" = some (.jint 123) ∧
    ((sends (attemptEvents 0 ⟨true, [notifyStatusUpdate]⟩)).head? = none ∨
      (sends (attemptEvents 0 ⟨true, [notifyStatusUpdate]⟩)).head? = some listRequest) ∧
    (∀ f fs, (⟨true, [notifyStatusUpdate]⟩ : AttemptEnv).connectOk = true →
      (⟨true, [notifyStatusUpdate]⟩ : AttemptEnv).frames = f :: fs →
      hasKey f "result" = false →
      attemptEvents 0 ⟨true, [notifyStatusUpdate]⟩ = [Ev.connect 0, Ev.send listRequest]) :=
  first_rpc_is_objects_list 0 ⟨true, [notifyStatusUpdate]⟩

/-- C8.  The query request embeds `api_key` exactly when a key is present
(a non-empty resolved key): with no key the body has no `api_key` field at
all, a body with the field can only come from a present key, and presence
and absence produce structurally different bodies. -/
theorem api_key_embedded_only_when_present :
    hasKey (buildQueryRequest none) "api_key" = false ∧
    (∀ k, hasKey (buildQueryRequest k) "api_key" = true →
      ∃ s, k = some s ∧ s ≠ "") ∧
    (∀ s, s ≠ "" → getKey (buildQueryRequest (some s)) "api_key" = some (.jstr s) ∧
      buildQueryRequest (some s) ≠ buildQueryRequest none) := by
  refine ⟨rfl, ?_, ?_⟩
  · intro k h
    match k with
    | none => exact absurd h (by decide)
    | some s =>
      refine ⟨s, rfl, ?_⟩
      intro hs
      subst hs
      exact absurd h (by decide)
  · intro s hs
    have hne : s.isEmpty = false := by
      cases he : s.isEmpty
      · rfl
      · exact absurd ((String.isEmpty_iff s).mp he) hs
    constructor
    · simp [buildQueryRequest, truthy, hne, getKey, List.lookup]
    · intro hcontra
      have hk := congrArg (fun v => hasKey v "api_key") hcontra
      simp [buildQueryRequest, truthy, hne, hasKey, getKey, List.lookup] at hk

/-- Witness for C8 at the concrete key "k". -/
theorem api_key_embedded_only_when_present_witness :
    getKey (buildQueryRequest (some "k")) "api_key" = some (.jstr "k") ∧
    buildQueryRequest (some "k") ≠ buildQueryRequest none :=
  api_key_embedded_only_when_present.2.2 "k" (by decide)

/-- C9.  For every status mapping whose `toolhead` object is absent, or
present (as a mapping) without a `position` field, `print_printer_status`
succeeds and prints the default position with two-decimal formatting,
raising nothing. -/
theorem missing_toolhead_prints_default (fs : List (String × JVal))
    (h : fs.lookup "toolhead" = none ∨
      ∃ tfs : List (String × JVal), fs.lookup "toolhead" = some (.jobj tfs) ∧
        tfs.lookup "position" = none) :
    print_printer_status (.jobj fs) =
      some "Toolhead Position: X=0.00, Y=0.00, Z=0.00" := by
  rcases h with h | ⟨tfs, h1, h2⟩
  · simp [print_printer_status, pyGet, getKey, h, defaultPosition, jIndex, asInt, fmt2]
    rfl
  · simp [print_printer_status, pyGet, getKey, h1, h2, defaultPosition, jIndex, asInt, fmt2]
    rfl

/-- Witness for C9: the empty status mapping. -/
theorem missing_toolhead_prints_default_witness :
    print_printer_status (.jobj []) =
      some "Toolhead Position: X=0.00, Y=0.00, Z=0.00" :=
  missing_toolhead_prints_default [] (Or.inl rfl)

/-- C10.  In every terminating run of the asynchronous client's attempt
loop, all `max_attempts` iterations are performed, each followed by the
two-unit sleep, and the run ends with the terminal failure log — success
inside an iteration never exits the loop early (the witness exercises a run
whose every attempt connects, subscribes and receives snapshots). -/
theorem all_attempts_run_even_after_success (envs : Nat → AttemptEnv)
    (_h : ∀ i, i < max_attempts → attemptTerminates (envs i) = true) :
    countConnect (get_printer_status envs) = max_attempts ∧
    countSleep20 (get_printer_status envs) = max_attempts ∧
    (get_printer_status envs).getLast? = some Ev.failLog :=
  ⟨countConnect_run envs, countSleep20_run envs, getLast_get_printer_status envs⟩

/-- Witness for C10: every attempt succeeds and yields a snapshot, yet the
loop still runs all three attempts and ends with the failure log. -/
theorem all_attempts_run_even_after_success_witness :
    countConnect (get_printer_status successfulEnvs) = max_attempts ∧
    countSleep20 (get_printer_status successfulEnvs) = max_attempts ∧
    (get_printer_status successfulEnvs).getLast? = some Ev.failLog :=
  all_attempts_run_even_after_success successfulEnvs (fun _ _ => rfl)
